import Mathlib

/-!
Verification development for the base64 audio converter (`src/app.py`).

The program is a single-page utility: it parses a JSON payload of the shape
`{"request_id": "...", "audios": ["<base64>", ...]}`, base64-decodes the first
entry of `audios`, writes it verbatim as the sample payload of a mono 16-bit
22050 Hz WAV container, optionally transcodes the WAV to MP3 through an
external codec, and deletes the intermediate WAV when only MP3 was requested.

This file shallowly embeds the pipeline logic of `app.py`:
  * `b64decode` models `base64.b64decode` (CPython, `validate=False`,
    i.e. `binascii.a2b_base64` in non-strict mode, plus the ASCII check
    of `_bytes_from_decode_data`);
  * `wavFileBytes` models what `wave.open(..., "wb")` with
    `setnchannels(1)`, `setsampwidth(2)`, `setframerate(22050)` and a single
    `writeframes(audio)` leaves on disk (44-byte RIFF/fmt/data header, then
    the payload verbatim);
  * `runPipeline` models the `convert_button` branch of `main()`: JSON-shape
    validation, filename allocation, the WAV write, the optional MP3
    transcode, and the best-effort WAV cleanup.  External effects
    (the pydub transcode, `os.remove`) are modelled by an environment of
    booleans saying whether they succeed, and the filesystem effects are
    recorded as an event trace.
-/

namespace App

/-- The value of one base64 alphabet character, as in CPython's
`table_a2b_base64`: `A`-`Z` ↦ 0-25, `a`-`z` ↦ 26-51, `0`-`9` ↦ 52-61,
`+` ↦ 62, `/` ↦ 63; `none` for every other character. -/
def b64Table (c : Char) : Option Nat :=
  if 'A' ≤ c ∧ c ≤ 'Z' then some (c.toNat - 65)
  else if 'a' ≤ c ∧ c ≤ 'z' then some (c.toNat - 97 + 26)
  else if '0' ≤ c ∧ c ≤ '9' then some (c.toNat - 48 + 52)
  else if c = '+' then some 62
  else if c = '/' then some 63
  else none

/-- The main loop of `binascii.a2b_base64` in non-strict mode
(CPython `Modules/binascii.c`): characters outside the alphabet are
skipped; `=` is ignored before two data characters of a quad, and a pad
sequence completing a quad terminates decoding; leftover bits at the end of
input raise an error (modelled as `none`). State: current position in the
quad (`quadPos`), the bits carried over (`leftchar`), the count of pads seen
since the last data character (`pads`), and the output accumulator. -/
def decodeLoop : List Char → Nat → Nat → Nat → List Nat → Option (List Nat)
  | [], quadPos, _, _, acc => if quadPos = 0 then some acc else none
  | c :: rest, quadPos, leftchar, pads, acc =>
    if c = '=' then
      if 2 ≤ quadPos then
        if 4 ≤ quadPos + (pads + 1) then some acc
        else decodeLoop rest quadPos leftchar (pads + 1) acc
      else decodeLoop rest quadPos leftchar pads acc
    else
      match b64Table c with
      | none => decodeLoop rest quadPos leftchar pads acc
      | some d =>
        match quadPos with
        | 0 => decodeLoop rest 1 d 0 acc
        | 1 => decodeLoop rest 2 (d % 16) 0 (acc ++ [(leftchar <<< 2) ||| (d >>> 4)])
        | 2 => decodeLoop rest 3 (d % 4) 0 (acc ++ [(leftchar <<< 4) ||| (d >>> 2)])
        | _ => decodeLoop rest 0 0 0 (acc ++ [(leftchar <<< 6) ||| d])

/-- `base64.b64decode` applied to a `str` argument with default options:
`_bytes_from_decode_data` first encodes the string as ASCII (raising
`ValueError`, modelled `none`, when any character is non-ASCII), then
`binascii.a2b_base64(s, strict_mode=False)` runs `decodeLoop`. -/
def b64decode (s : String) : Option (List Nat) :=
  if s.data.all (fun c => c.toNat < 128) then decodeLoop s.data 0 0 0 []
  else none

/-- Little-endian 16-bit field of the WAV header (`struct.pack '<H'`). -/
def u16le (n : Nat) : List Nat := [n % 256, n / 256 % 256]

/-- Little-endian 32-bit field of the WAV header (`struct.pack '<L'`). -/
def u32le (n : Nat) : List Nat :=
  [n % 256, n / 256 % 256, n / 65536 % 256, n / 16777216 % 256]

/-- The 44-byte header the `wave` module writes for a PCM file with
`nchannels=1`, `sampwidth=2`, `framerate=22050`, once `_patchheader` has
recorded `dataLen` written bytes: `RIFF`, chunk size `36 + dataLen`, `WAVE`,
`fmt `, subchunk size 16, audio format 1 (PCM), 1 channel, rate 22050,
byte rate 44100, block align 2, bits per sample 16, `data`, `dataLen`. -/
def wavHeader (dataLen : Nat) : List Nat :=
  [82, 73, 70, 70] ++ u32le (36 + dataLen) ++
  [87, 65, 86, 69] ++ [102, 109, 116, 32] ++ u32le 16 ++
  u16le 1 ++ u16le 1 ++ u32le 22050 ++ u32le 44100 ++ u16le 2 ++ u16le 16 ++
  [100, 97, 116, 97] ++ u32le dataLen

/-- The full byte content of the WAV file produced by
`save_audio_tts_method`: the fixed-format header followed by the decoded
audio bytes written verbatim by `writeframes`. -/
def wavFileBytes (payload : List Nat) : List Nat :=
  wavHeader payload.length ++ payload

/-- Reading back the sample payload of a produced WAV file: everything after
the 44-byte header. -/
def wavPayload (file : List Nat) : List Nat := file.drop 44

/-- A parsed JSON value, as `json.loads` can return it: `null`, booleans,
numbers, strings, arrays, and objects (a Python `dict`, modelled as the list
of key/value pairs in source order; with duplicate keys the last wins). -/
inductive Json where
  | null : Json
  | bool (b : Bool) : Json
  | num (n : Int) : Json
  | str (s : String) : Json
  | arr (xs : List Json) : Json
  | obj (kvs : List (String × Json)) : Json

/-- Dictionary lookup with Python `dict` semantics built from `json.loads`:
the last binding of a duplicated key wins. -/
def objLookup : List (String × Json) → String → Option Json
  | [], _ => none
  | p :: rest, k =>
    match objLookup rest k with
    | some v => some v
    | none => if p.1 = k then some p.2 else none

/-- `leadMatch needle hay` is true when `needle` occurs at the start of
`hay` (helper for Python's substring test `needle in hay`). -/
def leadMatch : List Char → List Char → Bool
  | [], _ => true
  | _ :: _, [] => false
  | a :: as, b :: bs => a = b && leadMatch as bs

/-- Python's substring containment `needle in hay` for strings. -/
def subFind : List Char → List Char → Bool
  | [], needle => needle.isEmpty
  | h :: t, needle => leadMatch needle (h :: t) || subFind t needle

/-- Python's `k in data` for a string literal `k` (here always `'audios'`):
key membership for a dict, element equality for a list (a string only
equals a string), substring for a string; `TypeError` (modelled `.error ()`)
for `int`, `float`, `bool` and `None`, which are not containers. -/
def jsonContains : Json → String → Except Unit Bool
  | .obj kvs, k => .ok (kvs.any (fun p => p.1 = k))
  | .arr xs, k => .ok (xs.any (fun v => match v with | .str s => s = k | _ => false))
  | .str s, k => .ok (subFind s.data k.data)
  | _, _ => .error ()

/-- Python's `data[k]` for a string key `k`: dict item lookup (`KeyError`
when absent), `TypeError` on every non-dict value (list and string indices
must be integers). -/
def jsonGetItem : Json → String → Except Unit Json
  | .obj kvs, k =>
    match objLookup kvs k with
    | some v => .ok v
    | none => .error ()
  | _, _ => .error ()

/-- The output-format radio selector of the page: `WAV`, `MP3` or `Both`. -/
inductive OutputFormat where
  | wav : OutputFormat
  | mp3 : OutputFormat
  | both : OutputFormat
deriving DecidableEq

/-- The wall-clock time `datetime.now()` observed by the filename
allocator, at the second-level resolution the format string uses. -/
structure DateTime where
  year : Nat
  month : Nat
  day : Nat
  hour : Nat
  minute : Nat
  second : Nat

/-- The external effects the pipeline depends on: whether the pydub
transcode to MP3 succeeds, and whether `os.remove` of the intermediate WAV
succeeds. -/
structure Env where
  transcodeOk : Bool
  removeOk : Bool

/-- How a conversion request ends, matching the messages `main()` renders:
the success banner, the `json.JSONDecodeError` message ("Invalid JSON
format. Please check your input..."), the schema message ("Invalid JSON
format. Must contain \x7baudios\x7d array with at least one entry."), or the
generic `except Exception` message ("Error: ..."). -/
inductive Outcome where
  | success : Outcome
  | malformedInput : Outcome
  | schemaViolation : Outcome
  | genericError : Outcome
deriving DecidableEq

/-- A filesystem effect of one pipeline run: the WAV write performed by
`save_audio_tts_method` (with the full file bytes), the attempted transcode
`convert_to_mp3` (writing the MP3 iff it succeeds), and the attempted
`os.remove` of the WAV. -/
inductive Event where
  | writeWav (path : String) (bytes : List Nat) : Event
  | transcode (src : String) (dst : String) (ok : Bool) : Event
  | removeWav (path : String) (ok : Bool) : Event
deriving DecidableEq

/-- The observable result of one click of the Convert button: the ordered
trace of filesystem effects and the final outcome shown to the user. -/
structure PipelineResult where
  events : List Event
  outcome : Outcome
deriving DecidableEq

/-- The validation at the top of the `try` block:
`if 'audios' not in data or not isinstance(data['audios'], list) or not
data['audios']: <schema message>; return`, and on success
`audio_string = data['audios'][0]`.  A `TypeError` raised by the membership
test or the item access lands in the generic handler. -/
def validateAudios (data : Json) : Except Outcome Json :=
  match jsonContains data "audios" with
  | .error _ => .error .genericError
  | .ok false => .error .schemaViolation
  | .ok true =>
    match jsonGetItem data "audios" with
    | .error _ => .error .genericError
    | .ok (.arr (a :: _)) => .ok a
    | .ok _ => .error .schemaViolation

/-- `request_id = data.get('request_id', 'audio').replace('/', '_')`:
each `/` of the caller-supplied id becomes `_`. -/
def sanitizeId (s : String) : String :=
  ⟨s.data.map (fun c => if c = '/' then '_' else c)⟩

/-- The id used for naming: `data.get('request_id', 'audio')` (the `dict.get`
default `'audio'` when the key is absent) followed by `.replace('/', '_')`.
`.get` exists because `data` is a dict here; `.replace` raises
`AttributeError` (generic handler) when the stored value is not a string. -/
def getRequestId (data : Json) : Except Outcome String :=
  match data with
  | .obj kvs =>
    match (objLookup kvs "request_id").getD (.str "audio") with
    | .str s => .ok (sanitizeId s)
    | _ => .error .genericError
  | _ => .error .genericError

/-- The decimal digit character of `n % 10`. -/
def digitChar (n : Nat) : Char := Char.ofNat (48 + n % 10)

/-- Zero-padded two-digit decimal field of `strftime` (`%m%d%H%M%S`). -/
def pad2 (n : Nat) : String := ⟨[digitChar (n / 10), digitChar n]⟩

/-- Zero-padded four-digit year field of `strftime` (`%Y`). -/
def pad4 (n : Nat) : String :=
  ⟨[digitChar (n / 1000), digitChar (n / 100), digitChar (n / 10), digitChar n]⟩

/-- `datetime.now().strftime("%Y%m%d_%H%M%S")`: the wall-clock time at
second resolution. -/
def formatTimestamp (dt : DateTime) : String :=
  pad4 dt.year ++ pad2 dt.month ++ pad2 dt.day ++ "_" ++
  pad2 dt.hour ++ pad2 dt.minute ++ pad2 dt.second

/-- `base_filename = f"<timestamp>_<request_id>"`. -/
def baseFilename (now : DateTime) (rid : String) : String :=
  formatTimestamp now ++ "_" ++ rid

/-- `wav_filename = f"audio_files/<base_filename>.wav"`. -/
def wavFilename (now : DateTime) (rid : String) : String :=
  "audio_files/" ++ baseFilename now rid ++ ".wav"

/-- `mp3_filename = f"audio_files/<base_filename>.mp3"`. -/
def mp3Filename (now : DateTime) (rid : String) : String :=
  "audio_files/" ++ baseFilename now rid ++ ".mp3"

/-- The decode step at the top of `save_audio_tts_method`:
`base64.b64decode(audio_string)`.  It runs before the file is opened, so a
failure (`binascii.Error`, `ValueError`, or `TypeError` on a non-string
entry) reaches the generic handler with nothing written. -/
def decodeAudio (a0 : Json) : Except Outcome (List Nat) :=
  match a0 with
  | .str s =>
    match b64decode s with
    | some bs => .ok bs
    | none => .error .genericError
  | _ => .error .genericError

/-- Everything after a successful WAV write, by selected format:
`WAV` shows the player and stops; `MP3`/`Both` call `convert_to_mp3`
(whose failure raises into the generic handler, after the WAV is already on
disk); when the format is exactly `MP3` the WAV is then removed inside
`try: os.remove(...) except: pass`, so a removal failure is swallowed. -/
def finishPipeline (wavPath mp3Path : String) (fmt : OutputFormat) (env : Env)
    (bytes : List Nat) : PipelineResult :=
  let w := Event.writeWav wavPath (wavFileBytes bytes)
  match fmt with
  | .wav => ⟨[w], .success⟩
  | .both =>
    if env.transcodeOk then ⟨[w, .transcode wavPath mp3Path true], .success⟩
    else ⟨[w, .transcode wavPath mp3Path false], .genericError⟩
  | .mp3 =>
    if env.transcodeOk then
      ⟨[w, .transcode wavPath mp3Path true, .removeWav wavPath env.removeOk], .success⟩
    else ⟨[w, .transcode wavPath mp3Path false], .genericError⟩

/-- The whole `convert_button` branch of `main()`.  `parsed` is the result
of `json.loads` (`none` when it raises `json.JSONDecodeError`); then shape
validation, filename allocation (timestamp and request id are computed
before any decode or write), the decode + WAV write, and the
format-dependent tail. -/
def runPipeline (parsed : Option Json) (fmt : OutputFormat) (now : DateTime)
    (env : Env) : PipelineResult :=
  match parsed with
  | none => ⟨[], .malformedInput⟩
  | some data =>
    match validateAudios data with
    | .error o => ⟨[], o⟩
    | .ok a0 =>
      match getRequestId data with
      | .error o => ⟨[], o⟩
      | .ok rid =>
        match decodeAudio a0 with
        | .error o => ⟨[], o⟩
        | .ok bytes =>
          finishPipeline (wavFilename now rid) (mp3Filename now rid) fmt env bytes

/-- An event is a WAV write. -/
def isWavWrite : Event → Bool
  | .writeWav _ _ => true
  | _ => false

/-- An event is a successful MP3 creation. -/
def isMp3Write : Event → Bool
  | .transcode _ _ ok => ok
  | _ => false

/-- An event is a transcode attempt, successful or not. -/
def isTranscodeAttempt : Event → Bool
  | .transcode _ _ _ => true
  | _ => false

/-- Number of WAV files written during the run. -/
def wavWriteCount (r : PipelineResult) : Nat := (r.events.filter isWavWrite).length

/-- Number of MP3 files written during the run. -/
def mp3WriteCount (r : PipelineResult) : Nat := (r.events.filter isMp3Write).length

/-- Number of transcode attempts during the run. -/
def transcodeAttempts (r : PipelineResult) : Nat :=
  (r.events.filter isTranscodeAttempt).length

/-- The WAV file at `p` exists after the run: it was written and no
successful removal of it happened. -/
def wavExistsAfter (r : PipelineResult) (p : String) : Bool :=
  (r.events.any fun e => match e with | .writeWav q _ => q = p | _ => false) &&
  !(r.events.any fun e => match e with | .removeWav q ok => q = p && ok | _ => false)

/-- The MP3 file at `p` exists after the run: a successful transcode wrote it. -/
def mp3ExistsAfter (r : PipelineResult) (p : String) : Bool :=
  r.events.any fun e => match e with | .transcode _ q ok => q = p && ok | _ => false

/-- No transcode event precedes the first WAV write in the trace. -/
def wavBeforeMp3 : List Event → Bool
  | [] => true
  | .transcode _ _ _ :: _ => false
  | .writeWav _ _ :: _ => true
  | .removeWav _ _ :: rest => wavBeforeMp3 rest

/-- The value is a JSON array (a Python `list`). -/
def Json.isArr : Json → Bool
  | .arr _ => true
  | _ => false

/-- The value is a JSON string (a Python `str`). -/
def Json.isStr : Json → Bool
  | .str _ => true
  | _ => false

/-- A string with every character outside the 64-character base64 alphabet
removed (the padding character `=` is not in the alphabet). -/
def stripNonAlphabet (s : String) : String :=
  ⟨s.data.filter (fun c => (b64Table c).isSome)⟩

/-- The characters `binascii.a2b_base64` does not discard in non-strict
mode: the base64 alphabet plus the padding character `=`. -/
def keepB64 (c : Char) : Bool := (b64Table c).isSome || c = '='

/-- A string with only the characters the decoder does not discard kept. -/
def stripJunk (s : String) : String := ⟨s.data.filter keepB64⟩

/-- The spec's concrete scenario input
`{"request_id":"r1","audios":["AAAA"]}` after `json.loads`. -/
def scenarioData : Json :=
  Json.obj [("request_id", Json.str "r1"), ("audios", Json.arr [Json.str "AAAA"])]

/-- A fixed wall-clock time used by the concrete witnesses. -/
def now0 : DateTime := ⟨2026, 10, 12, 0, 0, 0⟩

/-- An environment where the transcode and the removal both succeed. -/
def env0 : Env := ⟨true, true⟩

/-- An environment where the transcode succeeds but `os.remove` fails. -/
def envNoRemove : Env := ⟨true, false⟩

/-- An environment where the transcode fails. -/
def envNoTranscode : Env := ⟨false, true⟩

/-- A parsed input whose first audio entry is not decodable base64
(`"A"` leaves one data character, which `a2b_base64` rejects). -/
def badB64Data : Json := Json.obj [("audios", Json.arr [Json.str "A"])]

/-- A parsed input whose `request_id` is a JSON number instead of a string. -/
def badIdData : Json :=
  Json.obj [("request_id", Json.num 7), ("audios", Json.arr [Json.str "AAAA"])]

theorem wavHeader_length (dataLen : Nat) : (wavHeader dataLen).length = 44 := by
  simp [wavHeader, u16le, u32le]

/-- Round-trip at the container level: the payload read back from the file
bytes is exactly the payload written. -/
theorem wavPayload_wavFileBytes (payload : List Nat) :
    wavPayload (wavFileBytes payload) = payload := by
  simp [wavPayload, wavFileBytes, List.drop_append_of_le_length, wavHeader_length]

/-- Key membership in a dict agrees with lookup succeeding. -/
theorem objLookup_any (kvs : List (String × Json)) (k : String) :
    kvs.any (fun p => p.1 = k) = (objLookup kvs k).isSome := by
  induction kvs with
  | nil => rfl
  | cons p rest ih =>
    simp only [List.any_cons, objLookup, ih]
    cases hrest : objLookup rest k with
    | some v => simp
    | none =>
      by_cases hp : p.1 = k <;> simp [hp]

/-- `getRequestId` can only fail with the generic handler's outcome. -/
theorem getRequestId_error (data : Json) (o : Outcome)
    (h : getRequestId data = .error o) : o = .genericError := by
  cases data <;> simp only [getRequestId] at h
  case obj kvs =>
    split at h
    · exact (Except.noConfusion h)
    · injection h with h2; exact h2.symm
  all_goals (injection h with h2; exact h2.symm)

/-- `validateAudios` can only fail with the schema message or the generic
handler's outcome. -/
theorem validateAudios_error_cases (data : Json) (o : Outcome)
    (h : validateAudios data = .error o) :
    o = .schemaViolation ∨ o = .genericError := by
  unfold validateAudios at h
  split at h
  · injection h with h2; exact Or.inr h2.symm
  · injection h with h2; exact Or.inl h2.symm
  · split at h
    · injection h with h2; exact Or.inr h2.symm
    · exact (Except.noConfusion h)
    · injection h with h2; exact Or.inl h2.symm

/-- `decodeAudio` can only fail with the generic handler's outcome. -/
theorem decodeAudio_error (a0 : Json) (o : Outcome)
    (h : decodeAudio a0 = .error o) : o = .genericError := by
  unfold decodeAudio at h
  split at h
  · split at h
    · exact (Except.noConfusion h)
    · injection h with h2; exact h2.symm
  · injection h with h2; exact h2.symm

/-- No decimal digit is a path separator. -/
theorem digitChar_ne_slash (n : Nat) : digitChar n ≠ '/' := by
  have h : n % 10 < 10 := Nat.mod_lt _ (by norm_num)
  unfold digitChar
  generalize hk : n % 10 = k at h ⊢
  interval_cases k <;> decide

/-- Characters the decoder discards can be dropped from the input without
changing the run of the decode loop, from any loop state. -/
theorem decodeLoop_filter (l : List Char) (quadPos leftchar pads : Nat)
    (acc : List Nat) :
    decodeLoop (l.filter keepB64) quadPos leftchar pads acc =
      decodeLoop l quadPos leftchar pads acc := by
  induction l generalizing quadPos leftchar pads acc with
  | nil => rfl
  | cons c rest ih =>
    rw [List.filter_cons]
    by_cases hc : c = '='
    · have hk : keepB64 c = true := by simp [keepB64, hc]
      rw [if_pos hk]
      subst hc
      by_cases h2 : 2 ≤ quadPos
      · by_cases h4 : 4 ≤ quadPos + (pads + 1)
        · simp [decodeLoop, h2, h4]
        · simp [decodeLoop, h2, h4, ih]
      · simp [decodeLoop, h2, ih]
    · cases hd : b64Table c with
      | some d =>
        have hk : keepB64 c = true := by simp [keepB64, hd]
        rw [if_pos hk]
        match quadPos with
        | 0 => simp [decodeLoop, hc, hd, ih]
        | 1 => simp [decodeLoop, hc, hd, ih]
        | 2 => simp [decodeLoop, hc, hd, ih]
        | n + 3 => simp [decodeLoop, hc, hd, ih]
      | none =>
        have hk : keepB64 c = false := by simp [keepB64, hd, hc]
        rw [if_neg (by simp [hk])]
        rw [ih]
        simp [decodeLoop, hc, hd]

/-- C8: for every input text that is not valid JSON (`json.loads` raises
`json.JSONDecodeError`), the run ends with the malformed-input message and
an empty event trace: no filesystem write happened and zero artifacts were
produced. -/
theorem claim_C8 (fmt : OutputFormat) (now : DateTime) (env : Env) :
    runPipeline none fmt now env = ⟨[], .malformedInput⟩ := rfl

/-- C2: for every parsed input whose `audios` list has a first element that
is a string not decodable as base64, the run ends with the generic
user-visible error (the spec's `PayloadDecodeError`) and an empty event
trace: zero artifacts are produced. -/
theorem claim_C2 (data : Json) (s : String) (fmt : OutputFormat)
    (now : DateTime) (env : Env)
    (hv : validateAudios data = .ok (.str s)) (hd : b64decode s = none) :
    runPipeline (some data) fmt now env = ⟨[], .genericError⟩ := by
  have hda : decodeAudio (Json.str s) = .error .genericError := by
    simp [decodeAudio, hd]
  cases hr : getRequestId data with
  | error o =>
    have ho := getRequestId_error data o hr
    subst ho
    simp [runPipeline, hv, hr]
  | ok rid =>
    simp [runPipeline, hv, hr, hda]

/-- Witness for C2: `"A"` is one data character, which the decoder rejects;
the run errors with no artifacts. -/
theorem claim_C2_witness :
    validateAudios badB64Data = .ok (.str "A") ∧ b64decode "A" = none ∧
    runPipeline (some badB64Data) .wav now0 env0 = ⟨[], .genericError⟩ :=
  ⟨rfl, rfl, claim_C2 badB64Data "A" .wav now0 env0 rfl rfl⟩

/-- Counterexample for C3 as stated: the input `5` parses as valid JSON and
lacks an `audios` field, but the membership test `'audios' not in data`
raises `TypeError` on a number, so the run ends with the generic handler's
message, not the schema-violation message (it does still produce zero
artifacts). -/
theorem claim_C3_counterexample :
    (runPipeline (some (Json.num 5)) .wav now0 env0).outcome = .genericError ∧
    (runPipeline (some (Json.num 5)) .wav now0 env0).events = [] ∧
    Outcome.genericError ≠ Outcome.schemaViolation :=
  ⟨rfl, rfl, by decide⟩

/-- C3 (amended: for inputs that parse as a JSON object): when the object
lacks an `audios` key, or its `audios` value is not a list, or it is the
empty list, the run ends with the schema-violation message and an empty
event trace: zero artifacts are produced. -/
theorem claim_C3 (kvs : List (String × Json)) (fmt : OutputFormat)
    (now : DateTime) (env : Env)
    (h : objLookup kvs "audios" = none ∨ objLookup kvs "audios" = some (Json.arr []) ∨
      ∃ v, objLookup kvs "audios" = some v ∧ v.isArr = false) :
    runPipeline (some (Json.obj kvs)) fmt now env = ⟨[], .schemaViolation⟩ := by
  have hval : validateAudios (Json.obj kvs) = .error .schemaViolation := by
    unfold validateAudios
    rcases h with h | h | ⟨v, hv, hvn⟩
    · have hc : jsonContains (Json.obj kvs) "audios" = .ok false := by
        simp [jsonContains, objLookup_any, h]
      rw [hc]
    · have hc : jsonContains (Json.obj kvs) "audios" = .ok true := by
        simp [jsonContains, objLookup_any, h]
      have hg : jsonGetItem (Json.obj kvs) "audios" = .ok (Json.arr []) := by
        simp [jsonGetItem, h]
      rw [hc, hg]
    · have hc : jsonContains (Json.obj kvs) "audios" = .ok true := by
        simp [jsonContains, objLookup_any, hv]
      have hg : jsonGetItem (Json.obj kvs) "audios" = .ok v := by
        simp [jsonGetItem, hv]
      rw [hc, hg]
      cases v <;> simp_all [Json.isArr]
  simp [runPipeline, hval]

/-- Witness for C3: the empty object lacks `audios`; the run reports the
schema violation with no artifacts. -/
theorem claim_C3_witness :
    runPipeline (some (Json.obj [])) .wav now0 env0 = ⟨[], .schemaViolation⟩ :=
  claim_C3 [] .wav now0 env0 (Or.inl rfl)

/-- C9: for every parsed object with a valid non-empty `audios` list whose
`request_id` is present but not a string, `.replace` raises
`AttributeError` before any decode or write, so the run ends with the
generic error and an empty event trace: zero artifacts, and the id is not
coerced into a filename. -/
theorem claim_C9 (kvs : List (String × Json)) (a0 v : Json)
    (fmt : OutputFormat) (now : DateTime) (env : Env)
    (hv : validateAudios (Json.obj kvs) = .ok a0)
    (hl : objLookup kvs "request_id" = some v)
    (hns : v.isStr = false) :
    runPipeline (some (Json.obj kvs)) fmt now env = ⟨[], .genericError⟩ := by
  have hr : getRequestId (Json.obj kvs) = .error .genericError := by
    simp only [getRequestId]
    rw [hl]
    cases v <;> simp_all [Json.isStr, Option.getD]
  simp [runPipeline, hv, hr]

/-- Witness for C9: a numeric `request_id` with a decodable first audio
entry still errors with no artifacts. -/
theorem claim_C9_witness :
    validateAudios badIdData = .ok (.str "AAAA") ∧
    runPipeline (some badIdData) .wav now0 env0 = ⟨[], .genericError⟩ :=
  ⟨rfl, claim_C9 [("request_id", Json.num 7), ("audios", Json.arr [Json.str "AAAA"])]
    (Json.str "AAAA") (Json.num 7) .wav now0 env0 rfl rfl rfl⟩

/-- C1: for every valid base64 string given as the first element of
`audios`, the produced WAV file is the fixed header followed by the decoded
bytes verbatim, whatever the selected format, so reading the container's
payload back yields exactly the raw decode; with format `WAV` the run
produces exactly that one file, no MP3, and reports success. -/
theorem claim_C1 (data : Json) (b : String) (bs : List Nat) (rid : String)
    (now : DateTime) (env : Env)
    (hv : validateAudios data = .ok (.str b))
    (hr : getRequestId data = .ok rid)
    (hd : b64decode b = some bs) :
    (∀ fmt, (runPipeline (some data) fmt now env).events.head? =
      some (.writeWav (wavFilename now rid) (wavFileBytes bs))) ∧
    wavPayload (wavFileBytes bs) = bs ∧
    runPipeline (some data) .wav now env =
      ⟨[.writeWav (wavFilename now rid) (wavFileBytes bs)], .success⟩ ∧
    mp3WriteCount (runPipeline (some data) .wav now env) = 0 := by
  have hda : decodeAudio (Json.str b) = .ok bs := by simp [decodeAudio, hd]
  refine ⟨?_, wavPayload_wavFileBytes bs, ?_, ?_⟩
  · intro fmt
    cases fmt <;> cases henv : env.transcodeOk <;>
      simp [runPipeline, hv, hr, hda, finishPipeline, henv]
  · simp [runPipeline, hv, hr, hda, finishPipeline]
  · simp [runPipeline, hv, hr, hda, finishPipeline, mp3WriteCount, isMp3Write]

/-- Witness for C1 at the spec's scenario: input
`{"request_id":"r1","audios":["AAAA"]}` with format `WAV` produces one
WAV file whose payload decodes to three zero bytes, no MP3, no error. -/
theorem claim_C1_witness :
    validateAudios scenarioData = .ok (.str "AAAA") ∧
    getRequestId scenarioData = .ok "r1" ∧
    b64decode "AAAA" = some [0, 0, 0] ∧
    runPipeline (some scenarioData) .wav now0 env0 =
      ⟨[.writeWav (wavFilename now0 "r1") (wavFileBytes [0, 0, 0])], .success⟩ ∧
    wavPayload (wavFileBytes [0, 0, 0]) = [0, 0, 0] ∧
    mp3WriteCount (runPipeline (some scenarioData) .wav now0 env0) = 0 :=
  ⟨rfl, rfl, rfl,
    (claim_C1 scenarioData "AAAA" [0, 0, 0] "r1" now0 env0 rfl rfl rfl).2.2.1,
    (claim_C1 scenarioData "AAAA" [0, 0, 0] "r1" now0 env0 rfl rfl rfl).2.1,
    (claim_C1 scenarioData "AAAA" [0, 0, 0] "r1" now0 env0 rfl rfl rfl).2.2.2⟩

/-- C4: for every valid request with format `MP3` only and a successful
transcode, the run reports success and the MP3 artifact exists; when
`os.remove` succeeds the intermediate WAV no longer exists, and when it
fails the failure is swallowed and the run still reports success. -/
theorem claim_C4 (data : Json) (b : String) (bs : List Nat) (rid : String)
    (now : DateTime) (env : Env)
    (hv : validateAudios data = .ok (.str b))
    (hr : getRequestId data = .ok rid)
    (hd : b64decode b = some bs)
    (ht : env.transcodeOk = true) :
    (runPipeline (some data) .mp3 now env).outcome = .success ∧
    mp3ExistsAfter (runPipeline (some data) .mp3 now env) (mp3Filename now rid) = true ∧
    (env.removeOk = true →
      wavExistsAfter (runPipeline (some data) .mp3 now env) (wavFilename now rid) = false) ∧
    (env.removeOk = false →
      (runPipeline (some data) .mp3 now env).outcome = .success) := by
  have hda : decodeAudio (Json.str b) = .ok bs := by simp [decodeAudio, hd]
  refine ⟨?_, ?_, ?_, ?_⟩ <;>
    simp [runPipeline, hv, hr, hda, finishPipeline, ht, mp3ExistsAfter, wavExistsAfter]

/-- Witness for C4 at the scenario input with a working transcoder and a
working removal. -/
theorem claim_C4_witness :
    (runPipeline (some scenarioData) .mp3 now0 env0).outcome = .success ∧
    mp3ExistsAfter (runPipeline (some scenarioData) .mp3 now0 env0)
      (mp3Filename now0 "r1") = true ∧
    wavExistsAfter (runPipeline (some scenarioData) .mp3 now0 env0)
      (wavFilename now0 "r1") = false :=
  ⟨(claim_C4 scenarioData "AAAA" [0, 0, 0] "r1" now0 env0 rfl rfl rfl rfl).1,
    (claim_C4 scenarioData "AAAA" [0, 0, 0] "r1" now0 env0 rfl rfl rfl rfl).2.1,
    (claim_C4 scenarioData "AAAA" [0, 0, 0] "r1" now0 env0 rfl rfl rfl rfl).2.2.1 rfl⟩

/-- C6: for every valid request selecting a compressed output whose
transcode step fails, the already-written WAV is left in place (no
rollback), no MP3 exists, the failure is reported through the generic
error message, and the transcode was attempted exactly once (no retry). -/
theorem claim_C6 (data : Json) (b : String) (bs : List Nat) (rid : String)
    (fmt : OutputFormat) (now : DateTime) (env : Env)
    (hv : validateAudios data = .ok (.str b))
    (hr : getRequestId data = .ok rid)
    (hd : b64decode b = some bs)
    (ht : env.transcodeOk = false)
    (hf : fmt = .mp3 ∨ fmt = .both) :
    wavExistsAfter (runPipeline (some data) fmt now env) (wavFilename now rid) = true ∧
    mp3ExistsAfter (runPipeline (some data) fmt now env) (mp3Filename now rid) = false ∧
    (runPipeline (some data) fmt now env).outcome = .genericError ∧
    transcodeAttempts (runPipeline (some data) fmt now env) = 1 ∧
    wavWriteCount (runPipeline (some data) fmt now env) = 1 := by
  have hda : decodeAudio (Json.str b) = .ok bs := by simp [decodeAudio, hd]
  rcases hf with rfl | rfl <;>
    refine ⟨?_, ?_, ?_, ?_, ?_⟩ <;>
      simp [runPipeline, hv, hr, hda, finishPipeline, ht, wavExistsAfter,
        mp3ExistsAfter, transcodeAttempts, wavWriteCount, isTranscodeAttempt,
        isWavWrite]

/-- Witness for C6 at the scenario input with a failing transcoder and
format `MP3`. -/
theorem claim_C6_witness :
    wavExistsAfter (runPipeline (some scenarioData) .mp3 now0 envNoTranscode)
      (wavFilename now0 "r1") = true ∧
    mp3ExistsAfter (runPipeline (some scenarioData) .mp3 now0 envNoTranscode)
      (mp3Filename now0 "r1") = false ∧
    (runPipeline (some scenarioData) .mp3 now0 envNoTranscode).outcome = .genericError ∧
    transcodeAttempts (runPipeline (some scenarioData) .mp3 now0 envNoTranscode) = 1 ∧
    wavWriteCount (runPipeline (some scenarioData) .mp3 now0 envNoTranscode) = 1 :=
  claim_C6 scenarioData "AAAA" [0, 0, 0] "r1" .mp3 now0 envNoTranscode
    rfl rfl rfl rfl (Or.inl rfl)

/-- C7: every run that reports success wrote exactly one WAV artifact and
at most one MP3 artifact, and no transcode happened before the WAV write,
for every selected output format including `MP3` only. -/
theorem claim_C7 (parsed : Option Json) (fmt : OutputFormat) (now : DateTime)
    (env : Env)
    (hs : (runPipeline parsed fmt now env).outcome = .success) :
    wavWriteCount (runPipeline parsed fmt now env) = 1 ∧
    mp3WriteCount (runPipeline parsed fmt now env) ≤ 1 ∧
    wavBeforeMp3 (runPipeline parsed fmt now env).events = true := by
  cases parsed with
  | none => simp [runPipeline] at hs
  | some data =>
    cases hv : validateAudios data with
    | error o =>
      rcases validateAudios_error_cases data o hv with rfl | rfl <;>
        simp [runPipeline, hv] at hs
    | ok a0 =>
      cases hr : getRequestId data with
      | error o =>
        have ho := getRequestId_error data o hr
        subst ho
        simp [runPipeline, hv, hr] at hs
      | ok rid =>
        cases hda : decodeAudio a0 with
        | error o =>
          have ho := decodeAudio_error a0 o hda
          subst ho
          simp [runPipeline, hv, hr, hda] at hs
        | ok bytes =>
          cases fmt <;> cases henv : env.transcodeOk <;>
            simp_all [runPipeline, hv, hr, hda, finishPipeline, wavWriteCount,
              mp3WriteCount, wavBeforeMp3, isWavWrite, isMp3Write]

/-- Witness for C7 at the scenario input with format `Both`. -/
theorem claim_C7_witness :
    (runPipeline (some scenarioData) .both now0 env0).outcome = .success ∧
    (wavWriteCount (runPipeline (some scenarioData) .both now0 env0) = 1 ∧
     mp3WriteCount (runPipeline (some scenarioData) .both now0 env0) ≤ 1 ∧
     wavBeforeMp3 (runPipeline (some scenarioData) .both now0 env0).events = true) :=
  ⟨rfl, claim_C7 (some scenarioData) .both now0 env0 rfl⟩

/-- C5: the id used for naming defaults to the placeholder `audio` when
`request_id` is absent and is the sanitized caller id otherwise; the
sanitized id contains no path separator, the whole base filename
`<YYYYMMDD_HHMMSS>_<sanitizedRequestId>` contains no path separator (so the
generated files stay within the output directory), and the WAV path is the
output directory followed by that base name. -/
theorem claim_C5 (kvs : List (String × Json)) (s : String) (now : DateTime) :
    (objLookup kvs "request_id" = none → getRequestId (Json.obj kvs) = .ok "audio") ∧
    (objLookup kvs "request_id" = some (Json.str s) →
      getRequestId (Json.obj kvs) = .ok (sanitizeId s)) ∧
    (∀ c ∈ (sanitizeId s).data, c ≠ '/') ∧
    (∀ c ∈ (baseFilename now (sanitizeId s)).data, c ≠ '/') ∧
    wavFilename now (sanitizeId s) =
      "audio_files/" ++ (formatTimestamp now ++ "_" ++ sanitizeId s) ++ ".wav" := by
  have hu : ("_" : String).data = ['_'] := rfl
  have hsan : ∀ c ∈ (sanitizeId s).data, c ≠ '/' := by
    intro c hc
    simp only [sanitizeId] at hc
    rw [List.mem_map] at hc
    obtain ⟨x, hx, rfl⟩ := hc
    by_cases h : x = '/'
    · simp [h]
    · simp only [if_neg h]; exact h
  have hts : ∀ c ∈ (formatTimestamp now).data, c ≠ '/' := by
    intro c hc
    have hdata : (formatTimestamp now).data =
        [digitChar (now.year / 1000), digitChar (now.year / 100),
         digitChar (now.year / 10), digitChar now.year,
         digitChar (now.month / 10), digitChar now.month,
         digitChar (now.day / 10), digitChar now.day, '_',
         digitChar (now.hour / 10), digitChar now.hour,
         digitChar (now.minute / 10), digitChar now.minute,
         digitChar (now.second / 10), digitChar now.second] := by
      simp [formatTimestamp, pad4, pad2, String.data_append, hu]
    rw [hdata] at hc
    simp only [List.mem_cons, List.not_mem_nil, or_false] at hc
    rcases hc with rfl|rfl|rfl|rfl|rfl|rfl|rfl|rfl|rfl|rfl|rfl|rfl|rfl|rfl|rfl <;>
      first
        | exact digitChar_ne_slash _
        | decide
  refine ⟨?_, ?_, hsan, ?_, rfl⟩
  · intro h
    simp only [getRequestId]
    rw [h]
    rfl
  · intro h
    simp only [getRequestId]
    rw [h]
    rfl
  · intro c hc
    simp only [baseFilename, String.data_append, hu, List.mem_append,
      List.mem_singleton] at hc
    rcases hc with (h | rfl) | h
    · exact hts c h
    · decide
    · exact hsan c h

/-- Witness for C5: a caller id containing a path separator is sanitized,
and an absent id falls back to the placeholder. -/
theorem claim_C5_witness :
    getRequestId (Json.obj [("request_id", Json.str "a/b")]) = .ok (sanitizeId "a/b") ∧
    sanitizeId "a/b" = "a_b" ∧
    getRequestId (Json.obj []) = .ok "audio" :=
  ⟨(claim_C5 [("request_id", Json.str "a/b")] "a/b" now0).2.1 rfl, rfl,
   (claim_C5 [] "a/b" now0).1 rfl⟩

/-- Counterexample for C10 as stated: the padding character `=` is outside
the 64-character base64 alphabet, yet removing it changes the result:
`"AA=="` decodes to one zero byte, while its alphabet-only restriction
`"AA"` fails to decode (incorrect padding). -/
theorem claim_C10_counterexample :
    stripNonAlphabet "AA==" = "AA" ∧
    b64decode "AA==" = some [0] ∧
    b64decode (stripNonAlphabet "AA==") = none :=
  ⟨rfl, rfl, rfl⟩

/-- C10 (amended): for every ASCII input string, the decoder discards
exactly the characters that are neither in the base64 alphabet nor the
padding character `=`: decoding the string equals decoding its restriction
to alphabet-plus-padding characters, so strings containing whitespace or
punctuation are decoded without error. -/
theorem claim_C10 (s : String) (h : ∀ c ∈ s.data, c.toNat < 128) :
    b64decode s = b64decode (stripJunk s) := by
  have h1 : s.data.all (fun c => decide (c.toNat < 128)) = true := by
    rw [List.all_eq_true]
    intro c hc
    exact decide_eq_true (h c hc)
  have h2 : (stripJunk s).data.all (fun c => decide (c.toNat < 128)) = true := by
    rw [List.all_eq_true]
    intro c hc
    exact decide_eq_true (h c (List.mem_of_mem_filter hc))
  unfold b64decode
  rw [if_pos h1, if_pos h2]
  exact (decodeLoop_filter s.data 0 0 0 []).symm

/-- Witness for C10: `"AA AA"`, which contains whitespace and is not strict
base64, decodes to the same three zero bytes as its junk-free restriction,
without error. -/
theorem claim_C10_witness :
    (∀ c ∈ ("AA AA" : String).data, c.toNat < 128) ∧
    b64decode "AA AA" = b64decode (stripJunk "AA AA") ∧
    b64decode "AA AA" = some [0, 0, 0] :=
  ⟨by decide, claim_C10 "AA AA" (by decide), rfl⟩

end App
